import Mathlib

/- Verification of the question-bank assembly and variant-generation pipeline of
the ai-course-test-platform repository. The definitions below are a shallow
embedding of src/test_generator.py (class QuestionGenerator) and
src/test_generator_batch.py (function generate_test_variants); each definition
names the source function it models. File system reads, file writes, the current
date and the random shuffles drawn by random.shuffle are passed in explicitly as
parameters, since they are the only effectful inputs of the pipeline. -/

/-- A leaf JSON value as it can occur inside a raw question record: a string, an
integer, a boolean or null. Nested containers inside the answers array are not
representable; the validator only compares values for equality, so leaves cover
the behaviour the claims are about. -/
inductive JLeaf where
  | str : String → JLeaf
  | num : Int → JLeaf
  | bool : Bool → JLeaf
  | null : JLeaf
  deriving DecidableEq

/-- A JSON value stored under one key of a raw question record: a leaf or an
array of leaves. The validator only asks whether the value is a list, its
length, and membership of another value in it. -/
inductive JValue where
  | leaf : JLeaf → JValue
  | arr : List JLeaf → JValue
  deriving DecidableEq

/-- A raw question record (one JSON object of a pool file) as seen by
QuestionGenerator. Only the three keys the validator reads are modelled; a key
absent from the record is none. -/
structure RawQuestion where
  question : Option JValue
  answers : Option JValue
  correct : Option JValue
  deriving DecidableEq

/-- The reasons logged by QuestionGenerator when a record fails validation,
src/test_generator.py lines 181 to 200. -/
inductive VReason where
  | missingField : String → VReason
  | answersNotFour : VReason
  | correctNotInAnswers : VReason
  deriving DecidableEq

/-- Membership of the value under the correct key in the answers array, as the
Python expression with the in operator computes it: equality against each
element. An array value is never equal to a leaf element. -/
def jmem (c : JValue) (as : List JLeaf) : Bool :=
  match c with
  | JValue.leaf l => as.contains l
  | JValue.arr _ => false

/-- Models QuestionGenerator _validate_question combined with the warning it
logs, src/test_generator.py lines 170 to 202: none means the record passes; some
r reports the first failed rule. The source loop over
required_fields = [question, answers, correct] is unrolled into the three
presence checks in that order. -/
def validateReason (q : RawQuestion) : Option VReason :=
  if q.question.isNone then some (VReason.missingField "question")
  else if q.answers.isNone then some (VReason.missingField "answers")
  else if q.correct.isNone then some (VReason.missingField "correct")
  else
    match q.answers.getD (JValue.leaf JLeaf.null) with
    | JValue.arr as =>
      if as.length = 4 then
        if jmem (q.correct.getD (JValue.leaf JLeaf.null)) as then none
        else some VReason.correctNotInAnswers
      else some VReason.answersNotFour
    | JValue.leaf _ => some VReason.answersNotFour

/-- The boolean result of QuestionGenerator _validate_question. -/
def _validate_question (q : RawQuestion) : Bool :=
  (validateReason q).isNone

/-- Rule (a) of the validator: the three required fields are present. The spec
calls the question-text field text; the code key is question. -/
def fieldsPresent (q : RawQuestion) : Prop :=
  q.question.isSome ∧ q.answers.isSome ∧ q.correct.isSome

/-- Rule (b) of the validator: the answers value is a sequence of exactly 4
elements. -/
def answersIsFour (q : RawQuestion) : Prop :=
  ∃ as, q.answers = some (JValue.arr as) ∧ as.length = 4

/-- Rule (c) of the validator: the correct value is a member of the answers. -/
def correctMember (q : RawQuestion) : Prop :=
  ∃ as l, q.answers = some (JValue.arr as) ∧ q.correct = some (JValue.leaf l) ∧ l ∈ as

/-- The name of the first required field missing from the record, in the order
of the required_fields list of the source. -/
def firstMissingField (q : RawQuestion) : String :=
  if q.question.isNone then "question"
  else if q.answers.isNone then "answers"
  else "correct"

/-- A validated question, in the shape of the data model of the spec: question
holds the text, answers the four options, correct the right answer. -/
structure Question where
  question : String
  answers : List String
  correct : String
  deriving DecidableEq

/-- A converted question as convert_format emits it: the five choices and the
index of the correct one. -/
structure ChoiceSet where
  question : String
  choices : List String
  correct : Nat
  deriving DecidableEq

/-- The apostrophe character, written by code point to keep source lines plain. -/
def aposChar : Char := Char.ofNat 39

/-- The English sentinel string of convert_format, with the apostrophe built by
code point. -/
def idk : String := "I don" ++ String.singleton aposChar ++ "t know"

/-- The sentinel appended by convert_format, src/test_generator.py lines 231 to
235: the English sentinel when the generator language is en, otherwise Ne znam. -/
def sentinel (language : String) : String :=
  if language = "en" then idk else "Ne znam"

/-- One iteration of the loop of QuestionGenerator convert_format,
src/test_generator.py lines 219 to 243. The list shuffled stands for the result
of random.shuffle on a copy of the answers of q; the branch without shuffling
corresponds to shuffled = q.answers. The correct index is located before the
sentinel is appended, exactly as in the source. -/
def convertOne (language : String) (q : Question) (shuffled : List String) : ChoiceSet :=
  { question := q.question
    choices := shuffled ++ [sentinel language]
    correct := shuffled.indexOf q.correct }

/-- The loop of convert_format over the question list: draws i is the shuffled
copy of the answers drawn for the question at position i. -/
def convertAll (language : String) (draws : Nat → List String) :
    List Question → Nat → List ChoiceSet
  | [], _ => []
  | q :: qs, i => convertOne language q (draws i) :: convertAll language draws qs (i + 1)

/-- Models QuestionGenerator convert_format, src/test_generator.py lines 204 to
250, with the random draws passed in as a stream of shuffled answer lists. -/
def convert_format (language : String) (questions : List Question)
    (draws : Nat → List String) : List ChoiceSet :=
  convertAll language draws questions 0

/-- The Python exception classes raised by the pipeline. -/
inductive PyExcClass where
  | valueError
  | fileNotFoundError
  | osError
  | runtimeError
  deriving DecidableEq

/-- The failures of the pipeline, named as the error kinds of the spec. -/
inductive GenError where
  | invalidLanguage : String → GenError
  | fileNotFound : String → GenError
  | parseError : String → GenError
  | insufficientQuestions : String → Nat → Nat → GenError
  | writeFailure : String → GenError
  deriving DecidableEq

/-- The Python class of the exception raised for each error kind: ValueError for
an unsupported language, a parse failure or insufficient questions,
FileNotFoundError for a missing pool, OSError for a failed write. None of them
is RuntimeError. -/
def GenError.pyClass : GenError → PyExcClass
  | GenError.invalidLanguage _ => PyExcClass.valueError
  | GenError.fileNotFound _ => PyExcClass.fileNotFoundError
  | GenError.parseError _ => PyExcClass.valueError
  | GenError.insufficientQuestions _ _ _ => PyExcClass.valueError
  | GenError.writeFailure _ => PyExcClass.osError

/-- One entry of the file_configs list built by get_file_configs_from_content: a
pool path and the required question count. -/
structure FileConfig where
  path : String
  count : Nat
  deriving DecidableEq

/-- Models QuestionGenerator load_questions, src/test_generator.py lines 126 to
168, against an abstract read-only filesystem: fs path = some qs means the file
exists, parses as a list of records, and its valid questions in file order are
qs; fs path = none means the file does not exist. -/
def load_questions (fs : String → Option (List Question)) (path : String) :
    Except GenError (List Question) :=
  match fs path with
  | none => Except.error (GenError.fileNotFound path)
  | some qs => Except.ok qs

/-- Models QuestionGenerator load_questions_from_multiple_files,
src/test_generator.py lines 84 to 124: load each pool in order, raise when a
pool holds fewer valid questions than required, otherwise keep the first count
questions in file order and concatenate across pools in config order. -/
def load_questions_from_multiple_files (fs : String → Option (List Question)) :
    List FileConfig → Except GenError (List Question)
  | [] => Except.ok []
  | c :: rest =>
    match load_questions fs c.path with
    | Except.error e => Except.error e
    | Except.ok file_questions =>
      if file_questions.length < c.count then
        Except.error (GenError.insufficientQuestions c.path file_questions.length c.count)
      else
        match load_questions_from_multiple_files fs rest with
        | Except.error e => Except.error e
        | Except.ok more => Except.ok (file_questions.take c.count ++ more)

/-- The backslash character by code point. -/
def backslashChar : Char := Char.ofNat 92

/-- The double quote character by code point. -/
def dquoteChar : Char := Char.ofNat 34

/-- The single quote character by code point. -/
def squoteChar : Char := Char.ofNat 39

/-- The newline character by code point. -/
def newlineChar : Char := Char.ofNat 10

/-- The carriage return character by code point. -/
def carriageChar : Char := Char.ofNat 13

/-- Replaces every occurrence of the character c by the replacement list r. A
Python str.replace whose pattern is a single character acts exactly charwise, so
the replace chain of the source is modelled by composing this function. -/
def expandChar (c : Char) (r : List Char) : List Char → List Char
  | [] => []
  | x :: xs => (if x = c then r else [x]) ++ expandChar c r xs

/-- Models QuestionGenerator _escape_js_string, src/test_generator.py lines 484
to 491: replace backslash, double quote, newline and carriage return, in that
order. The single quote character is not replaced. -/
def _escape_js_string (text : String) : String :=
  String.mk
    (expandChar carriageChar [backslashChar, Char.ofNat 114]
      (expandChar newlineChar [backslashChar, Char.ofNat 110]
        (expandChar dquoteChar [backslashChar, dquoteChar]
          (expandChar backslashChar [backslashChar, backslashChar] text.data))))

/-- Scans the body of a template string literal delimited by delim: a backslash
escapes the character after it; the result is true when a bare delimiter,
newline or carriage return occurs, that is when the embedded text terminates or
breaks the enclosing literal. A trailing lone backslash also breaks the literal
because it escapes the closing delimiter. -/
def hasUnescaped (delim : Char) : List Char → Bool
  | [] => false
  | c :: rest =>
    if c = backslashChar then
      match rest with
      | [] => true
      | _ :: rest2 => hasUnescaped delim rest2
    else if c = delim ∨ c = newlineChar ∨ c = carriageChar then true
    else hasUnescaped delim rest

/-- From generate_script, src/test_generator.py lines 287, 292, 293 and 308: the
escaped title, description and confirmation message are interpolated inside
single-quoted JS string literals of the template. -/
def embedSingleQuoted (s : String) : String :=
  String.singleton squoteChar ++ _escape_js_string s ++ String.singleton squoteChar

/-- From _format_questions_for_js, src/test_generator.py line 510: the escaped
question text is interpolated inside a double-quoted JS string literal. -/
def embedDoubleQuoted (s : String) : String :=
  String.singleton dquoteChar ++ _escape_js_string s ++ String.singleton dquoteChar

/-- Lowers one ASCII letter, as the Python str.lower method does on the ASCII
language codes the pipeline compares. -/
def lowerChar (c : Char) : Char :=
  if 65 ≤ c.toNat ∧ c.toNat ≤ 90 then Char.ofNat (c.toNat + 32) else c

/-- Models the Python str.lower method on ASCII strings. -/
def pyLower (s : String) : String :=
  String.mk (s.data.map lowerChar)

/-- The mutable attributes of a QuestionGenerator instance, set by __init__,
src/test_generator.py lines 25 to 53. -/
structure GenState where
  name : String
  language : String
  results_sheet : String
  description : String
  points_per_question : Nat
  confirmation_message : String
  title : String
  deriving DecidableEq

/-- The data generate_script interpolates into the fixed template,
src/test_generator.py lines 252 to 482: the rendered script is a pure function
of these fields and of the converted question list, so the artifact is modelled
by them. -/
structure Artifact where
  name : String
  title : String
  description : String
  confirmation_message : String
  results_sheet : String
  points_per_question : Nat
  questions : List ChoiceSet
  deriving DecidableEq

/-- Models QuestionGenerator generate_script: it embeds exactly the state fields
and the converted questions into the template. -/
def generate_script (st : GenState) (questions : List ChoiceSet) : Artifact :=
  { name := st.name, title := st.title, description := st.description,
    confirmation_message := st.confirmation_message,
    results_sheet := st.results_sheet,
    points_per_question := st.points_per_question, questions := questions }

instance exceptDecEq {ε α : Type} [DecidableEq ε] [DecidableEq α] :
    DecidableEq (Except ε α) := fun a b =>
  match a, b with
  | Except.error e, Except.error f =>
    if h : e = f then isTrue (by rw [h]) else isFalse (by intro hh; cases hh; exact h rfl)
  | Except.error _, Except.ok _ => isFalse (by intro hh; cases hh)
  | Except.ok _, Except.error _ => isFalse (by intro hh; cases hh)
  | Except.ok x, Except.ok y =>
    if h : x = y then isTrue (by rw [h]) else isFalse (by intro hh; cases hh; exact h rfl)

/-- The result of one run of the generation workflow: the final generator state,
the returned artifact or raised error, and the files actually written. -/
structure GenReturn where
  state : GenState
  result : Except GenError Artifact
  written : List (String × Artifact)
  deriving DecidableEq

/-- Models QuestionGenerator generate_test_from_multiple_files,
src/test_generator.py lines 543 to 592: tag the title with the language, load,
convert, render, save, then restore the title. writeOk models whether the
operating system write to a path succeeds. On any raise the tagged title is not
restored and nothing is written; on success exactly one file is written. -/
def generate_test_from_multiple_files (fs : String → Option (List Question))
    (writeOk : String → Bool) (draws : Nat → List String) (st : GenState)
    (file_configs : List FileConfig) (output_path : String) : GenReturn :=
  let original_title := st.title
  let tagged := { st with title := original_title ++ " [" ++ st.language ++ "]" }
  match load_questions_from_multiple_files fs file_configs with
  | Except.error e => { state := tagged, result := Except.error e, written := [] }
  | Except.ok all_questions =>
    let js_questions := convert_format tagged.language all_questions draws
    let script := generate_script tagged js_questions
    if writeOk output_path then
      { state := { tagged with title := original_title },
        result := Except.ok script,
        written := [(output_path, script)] }
    else
      { state := tagged,
        result := Except.error (GenError.writeFailure output_path),
        written := [] }

/-- Models QuestionGenerator get_file_configs_from_content,
src/test_generator.py lines 55 to 82. content_config is the insertion-ordered
pair list of the Python dict; the full path is QAPool/ then the lowered language
then the relative path, which in the configs of the repository starts with a
slash. -/
def get_file_configs_from_content (content_config : List (String × Nat))
    (language : String) : Except GenError (List FileConfig) :=
  let lang := pyLower language
  if lang = "en" ∨ lang = "rs" then
    Except.ok (content_config.map
      (fun p => { path := "QAPool/" ++ lang ++ p.1, count := p.2 }))
  else
    Except.error (GenError.invalidLanguage language)

/-- The default output path of generate_test_for_language when none is given,
src/test_generator.py lines 620 to 627. -/
def default_output_path (language : String) (variant_number : Option Nat) : String :=
  match variant_number with
  | some n => "generated_test_" ++ pyLower language ++ "_variant_" ++ toString n ++ ".gs"
  | none => "generated_test_" ++ pyLower language ++ ".gs"

/-- Models QuestionGenerator generate_test_for_language, src/test_generator.py
lines 594 to 629: set the generator language, resolve the content config, then
run the multi-file workflow. -/
def generate_test_for_language (fs : String → Option (List Question))
    (writeOk : String → Bool) (draws : Nat → List String) (st : GenState)
    (content_config : List (String × Nat)) (language : String)
    (output_path : Option String) (variant_number : Option Nat) : GenReturn :=
  let st1 := { st with language := pyLower language }
  match get_file_configs_from_content content_config language with
  | Except.error e => { state := st1, result := Except.error e, written := [] }
  | Except.ok file_configs =>
    let out := output_path.getD (default_output_path language variant_number)
    generate_test_from_multiple_files fs writeOk draws st1 file_configs out

/-- The test configuration fields generate_test_variants reads,
src/test_generator_batch.py lines 67 to 81. The defaults of config.get, namely
language both, variants 10 and output-dir /tmp, are modelled by the caller
filling the fields. -/
structure BatchConfig where
  name : String
  results_sheet : String
  content : List (String × Nat)
  language : String
  variants : Nat
  output_dir : String
  deriving DecidableEq

/-- A fresh QuestionGenerator as the batch constructs one per language,
src/test_generator_batch.py lines 98 to 100, with the default description,
points and confirmation message of __init__. -/
def initGenState (name language results_sheet : String) : GenState :=
  { name := name, language := pyLower language, results_sheet := results_sheet,
    description := "To AI or not to AI, that is the question",
    points_per_question := 1,
    confirmation_message := "Hvala što ste učestvovali u kvizu! / Thanks for taking the quiz!",
    title := name }

/-- The languages the batch generates, src/test_generator_batch.py lines 76 to
81: the override when given, both supported languages when the config says
both, otherwise the single configured language. -/
def languagesToGenerate (config_language : String) (override : Option String) :
    List String :=
  match override with
  | some l => [pyLower l]
  | none =>
    if pyLower config_language = "both" then ["en", "rs"]
    else [pyLower config_language]

/-- The deterministic output filename of one variant,
src/test_generator_batch.py line 104. -/
def variantFilename (test_name current_date lang : String) (variant_num : Nat) :
    String :=
  test_name ++ " | " ++ current_date ++ " | [" ++ lang ++ "] | Variant " ++
    toString variant_num ++ ".gs"

/-- The running state of the batch loops: the generator carried across variants,
the file paths collected in generated_files, the files actually written, the
(language, variant) pairs whose generation was started, and the error of an
exception that escaped the loop, if any. -/
structure LoopState where
  gen : GenState
  files : List String
  written : List (String × Artifact)
  attempted : List (String × Nat)
  uncaught : Option GenError
  deriving DecidableEq

/-- The inner loop of generate_test_variants over variant numbers,
src/test_generator_batch.py lines 102 to 128. The except clause of the source
names only RuntimeError, so an error whose Python class differs from
RuntimeError escapes the loop and aborts the whole batch; the collected file
list is then discarded by the raise, while the files already written stay on
disk. The generator instance is reused across the variants of one language. -/
def variantLoop (fs : String → Option (List Question)) (writeOk : String → Bool)
    (draws : Nat → Nat → List String) (content : List (String × Nat))
    (test_name output current_date lang : String) :
    GenState → Nat → Nat → LoopState
  | st, _, 0 =>
    { gen := st, files := [], written := [], attempted := [], uncaught := none }
  | st, variant_num, r + 1 =>
    let path := output ++ "/" ++ variantFilename test_name current_date lang variant_num
    let ret := generate_test_for_language fs writeOk (draws variant_num) st content
      lang (some path) (some variant_num)
    match ret.result with
    | Except.ok _ =>
      let rest := variantLoop fs writeOk draws content test_name output current_date
        lang ret.state (variant_num + 1) r
      { gen := rest.gen, files := path :: rest.files,
        written := ret.written ++ rest.written,
        attempted := (lang, variant_num) :: rest.attempted,
        uncaught := rest.uncaught }
    | Except.error e =>
      if e.pyClass = PyExcClass.runtimeError then
        let rest := variantLoop fs writeOk draws content test_name output current_date
          lang ret.state (variant_num + 1) r
        { gen := rest.gen, files := rest.files,
          written := ret.written ++ rest.written,
          attempted := (lang, variant_num) :: rest.attempted,
          uncaught := rest.uncaught }
      else
        { gen := ret.state, files := [], written := ret.written,
          attempted := [(lang, variant_num)], uncaught := some e }

/-- The outer loop of generate_test_variants over the languages to generate: a
fresh generator per language, then the variant loop; an uncaught error stops
the remaining languages. -/
def langLoop (fs : String → Option (List Question)) (writeOk : String → Bool)
    (draws : String → Nat → Nat → List String) (content : List (String × Nat))
    (test_name results_sheet output current_date : String) (variants : Nat) :
    List String →
      List String × List (String × Artifact) × List (String × Nat) × Option GenError
  | [] => ([], [], [], none)
  | lang :: rest =>
    let st := initGenState test_name lang results_sheet
    let ls := variantLoop fs writeOk (draws lang) content test_name output
      current_date lang st 1 variants
    match ls.uncaught with
    | some e => (ls.files, ls.written, ls.attempted, some e)
    | none =>
      let more := langLoop fs writeOk draws content test_name results_sheet output
        current_date variants rest
      (ls.files ++ more.1, ls.written ++ more.2.1,
        ls.attempted ++ more.2.2.1, more.2.2.2)

/-- The outcome of one batch run: the returned list of generated file paths, or
the error of the exception the function raises; the artifact files actually
persisted; and the (language, variant) pairs whose generation was started. -/
structure BatchOutcome where
  result : Except GenError (List String)
  written : List (String × Artifact)
  attempted : List (String × Nat)
  deriving DecidableEq

/-- Models generate_test_variants of src/test_generator_batch.py, lines 49 to
135. current_date models datetime.now; draws lang v i is the shuffle drawn for
question i of variant v of language lang. -/
def generate_test_variants (fs : String → Option (List Question))
    (writeOk : String → Bool) (draws : String → Nat → Nat → List String)
    (config : BatchConfig) (language : Option String) (num_variants : Option Nat)
    (output_dir : Option String) (current_date : String) : BatchOutcome :=
  let variants := num_variants.getD config.variants
  let output := output_dir.getD config.output_dir
  let langs := languagesToGenerate config.language language
  let r := langLoop fs writeOk draws config.content config.name
    config.results_sheet output current_date variants langs
  { result :=
      match r.2.2.2 with
      | some e => Except.error e
      | none => Except.ok r.1,
    written := r.2.1, attempted := r.2.2.1 }

/-- The ordered sequence of question texts embedded in an artifact: the
selection the spec speaks about, independent of the choice ordering. -/
def selectionOf (a : Artifact) : List String :=
  a.questions.map (fun cs => cs.question)

/-- A default question used as the fallback of positional list access. -/
def qdflt : Question := { question := "", answers := [], correct := "" }

/-- A default choice set used as the fallback of positional list access. -/
def csdflt : ChoiceSet := { question := "", choices := [], correct := 0 }

theorem convertOne_len (language : String) (q : Question) (shuffled : List String)
    (hp : shuffled.Perm q.answers) (h4 : q.answers.length = 4) :
    (convertOne language q shuffled).choices.length = 5 := by
  simp [convertOne, hp.length_eq, h4]

theorem convertOne_correct_lt (language : String) (q : Question) (shuffled : List String)
    (hp : shuffled.Perm q.answers) (h4 : q.answers.length = 4)
    (hc : q.correct ∈ q.answers) :
    (convertOne language q shuffled).correct < 4 := by
  have hmem : q.correct ∈ shuffled := hp.mem_iff.mpr hc
  have hlt := List.indexOf_lt_length.mpr hmem
  have hlen : shuffled.length = 4 := hp.length_eq.trans h4
  simpa [convertOne, hlen] using hlt

theorem convertOne_correct_choice (language : String) (q : Question)
    (shuffled : List String) (hp : shuffled.Perm q.answers)
    (hc : q.correct ∈ q.answers) :
    (convertOne language q shuffled).choices.getD
      (convertOne language q shuffled).correct "" = q.correct := by
  have hmem : q.correct ∈ shuffled := hp.mem_iff.mpr hc
  have hlt : shuffled.indexOf q.correct < shuffled.length :=
    List.indexOf_lt_length.mpr hmem
  show (shuffled ++ [sentinel language]).getD (shuffled.indexOf q.correct) "" = q.correct
  rw [List.getD_append _ _ _ _ hlt, List.getD_eq_getElem _ _ hlt,
    List.getElem_indexOf hlt]

theorem convertOne_sentinel_last (language : String) (q : Question)
    (shuffled : List String) :
    (convertOne language q shuffled).choices.getLast? = some (sentinel language) := by
  show (shuffled ++ [sentinel language]).getLast? = some (sentinel language)
  exact List.getLast?_concat shuffled

theorem convertAll_length (language : String) (draws : Nat → List String)
    (qs : List Question) (i : Nat) :
    (convertAll language draws qs i).length = qs.length := by
  induction qs generalizing i with
  | nil => rfl
  | cons q qs ih => simp [convertAll, ih]

theorem convertAll_getD (language : String) (draws : Nat → List String)
    (qs : List Question) (i j : Nat) (hj : j < qs.length) :
    (convertAll language draws qs i).getD j csdflt =
      convertOne language (qs.getD j qdflt) (draws (i + j)) := by
  induction qs generalizing i j with
  | nil => simp at hj
  | cons q qs ih =>
    cases j with
    | zero => simp [convertAll]
    | succ j2 =>
      have hj2 : j2 < qs.length := by simpa using hj
      show (convertAll language draws qs (i + 1)).getD j2 csdflt = _
      rw [ih (i + 1) j2 hj2]
      have harg : i + 1 + j2 = i + (j2 + 1) := by omega
      rw [harg]
      rfl

theorem convertAll_map_question (language : String) (draws : Nat → List String)
    (qs : List Question) (i : Nat) :
    (convertAll language draws qs i).map (fun cs => cs.question) =
      qs.map (fun q => q.question) := by
  induction qs generalizing i with
  | nil => rfl
  | cons q qs ih => simp [convertAll, convertOne, ih]

/-- C5: a raw record passes validation exactly when the required fields are
present, the answers value is a list of exactly 4 elements, and the correct
value is a member of the answers; the rules are checked in that order and the
reason reported on failure is that of the first violated rule. The field the
spec calls text is the question key of the code. -/
theorem c5_validator_rules (q : RawQuestion) :
    (_validate_question q = true ↔
      fieldsPresent q ∧ answersIsFour q ∧ correctMember q) ∧
    (¬ fieldsPresent q →
      validateReason q = some (VReason.missingField (firstMissingField q))) ∧
    (fieldsPresent q → ¬ answersIsFour q →
      validateReason q = some VReason.answersNotFour) ∧
    (fieldsPresent q → answersIsFour q → ¬ correctMember q →
      validateReason q = some VReason.correctNotInAnswers) := by
  obtain ⟨oq, oa, oc⟩ := q
  cases oq with
  | none =>
    simp [_validate_question, validateReason, fieldsPresent, firstMissingField]
  | some vq =>
    cases oa with
    | none =>
      simp [_validate_question, validateReason, fieldsPresent, answersIsFour,
        firstMissingField]
    | some va =>
      cases oc with
      | none =>
        simp [_validate_question, validateReason, fieldsPresent, correctMember,
          firstMissingField]
      | some vc =>
        cases va with
        | leaf l =>
          simp [_validate_question, validateReason, fieldsPresent, answersIsFour,
            correctMember]
        | arr as =>
          by_cases h4 : as.length = 4
          · cases vc with
            | arr vcs =>
              simp [_validate_question, validateReason, fieldsPresent,
                answersIsFour, correctMember, jmem, h4]
            | leaf l =>
              by_cases hm : l ∈ as
              · simp [_validate_question, validateReason, fieldsPresent,
                  answersIsFour, correctMember, jmem, h4, hm, List.contains]
              · simp [_validate_question, validateReason, fieldsPresent,
                  answersIsFour, correctMember, jmem, h4, hm, List.contains]
          · simp [_validate_question, validateReason, fieldsPresent,
              answersIsFour, correctMember, h4]

/-- A well-formed raw record used to instantiate the validator theorem. -/
def rawGood : RawQuestion :=
  { question := some (JValue.leaf (JLeaf.str "Q")),
    answers := some (JValue.arr
      [JLeaf.str "A", JLeaf.str "B", JLeaf.str "C", JLeaf.str "D"]),
    correct := some (JValue.leaf (JLeaf.str "B")) }

/-- A raw record with every required field absent. -/
def rawNone : RawQuestion :=
  { question := none, answers := none, correct := none }

theorem c5_witness :
    _validate_question rawGood = true ∧
    validateReason rawNone = some (VReason.missingField "question") := by
  constructor
  · exact (c5_validator_rules rawGood).1.mpr
      ⟨⟨rfl, rfl, rfl⟩,
        ⟨[JLeaf.str "A", JLeaf.str "B", JLeaf.str "C", JLeaf.str "D"], rfl, by decide⟩,
        ⟨[JLeaf.str "A", JLeaf.str "B", JLeaf.str "C", JLeaf.str "D"],
          JLeaf.str "B", rfl, rfl, by decide⟩⟩
  · exact (c5_validator_rules rawNone).2.1 (by simp [fieldsPresent, rawNone])

/-- C6: for a language whose lowered form is en or rs, the resolver returns one
entry per configuration entry in insertion order, with the count unchanged and
the pool path QAPool/ then the language then the relative path, which for a
relative path starting with a slash is pool root, slash, language, slash, rest;
for any other language it fails with the InvalidLanguage error, a ValueError in
the source. -/
theorem c6_content_resolver (content_config : List (String × Nat)) (language : String) :
    ((pyLower language = "en" ∨ pyLower language = "rs") →
      get_file_configs_from_content content_config language =
        Except.ok (content_config.map
          (fun p => { path := "QAPool/" ++ pyLower language ++ p.1, count := p.2 })) ∧
      ∀ rel rest : String, rel = "/" ++ rest →
        "QAPool/" ++ pyLower language ++ rel =
          "QAPool/" ++ pyLower language ++ "/" ++ rest) ∧
    (¬ (pyLower language = "en" ∨ pyLower language = "rs") →
      get_file_configs_from_content content_config language =
        Except.error (GenError.invalidLanguage language)) := by
  constructor
  · intro h
    refine ⟨?_, ?_⟩
    · unfold get_file_configs_from_content
      rw [if_pos h]
    · intro rel rest hrel
      rw [hrel]
      simp [String.append_assoc]
  · intro h
    unfold get_file_configs_from_content
    rw [if_neg h]

theorem c6_witness :
    get_file_configs_from_content [("/l0-ai-citizen/m1.json", 7)] "EN" =
      Except.ok [{ path := "QAPool/en/l0-ai-citizen/m1.json", count := 7 }] ∧
    get_file_configs_from_content [("/l0-ai-citizen/m1.json", 7)] "de" =
      Except.error (GenError.invalidLanguage "de") := by
  constructor
  · have h := (c6_content_resolver [("/l0-ai-citizen/m1.json", 7)] "EN").1 (by decide)
    rw [h.1]
    decide
  · exact (c6_content_resolver [("/l0-ai-citizen/m1.json", 7)] "de").2 (by decide)

/-- C3: when every pool holds at least its required count of valid questions,
the multi-file loader returns exactly the first count valid questions of each
pool in file order, concatenated across pools in configuration order, and the
length of the selection is the sum of the counts. The loader draws no
randomness, so the selection is a pure function of the pools and the counts. -/
theorem c3_selection (fs : String → Option (List Question)) (configs : List FileConfig)
    (h : ∀ c ∈ configs, ∃ qs, fs c.path = some qs ∧ c.count ≤ qs.length) :
    load_questions_from_multiple_files fs configs =
      Except.ok ((configs.map (fun c => ((fs c.path).getD []).take c.count)).flatten) ∧
    ((configs.map (fun c => ((fs c.path).getD []).take c.count)).flatten).length =
      (configs.map (fun c => c.count)).sum := by
  induction configs with
  | nil => exact ⟨rfl, rfl⟩
  | cons c rest ih =>
    obtain ⟨qs, hfs, hle⟩ := h c (List.mem_cons_self c rest)
    obtain ⟨ihok, ihlen⟩ := ih (fun c2 hc2 => h c2 (List.mem_cons_of_mem c hc2))
    have hnlt : ¬ qs.length < c.count := Nat.not_lt.mpr hle
    constructor
    · simp only [load_questions_from_multiple_files, load_questions, hfs,
        if_neg hnlt, ihok, List.map_cons, List.flatten_cons, Option.getD_some]
    · simp only [List.map_cons, List.flatten_cons, List.length_append, ihlen,
        List.sum_cons, hfs, Option.getD_some, List.length_take]
      omega

/-- Two pools used by the selection witness. -/
def poolA : List Question :=
  [{ question := "Q1", answers := ["A", "B", "C", "D"], correct := "B" },
   { question := "Q2", answers := ["W", "X", "Y", "Z"], correct := "Z" }]

/-- A second pool used by the selection witness. -/
def poolB : List Question :=
  [{ question := "Q3", answers := ["E", "F", "G", "H"], correct := "E" },
   { question := "Q4", answers := ["I", "J", "K", "L"], correct := "L" }]

/-- The pool filesystem of the selection witness. -/
def fsTwo : String → Option (List Question) := fun p =>
  if p = "QAPool/en/m1.json" then some poolA
  else if p = "QAPool/en/m2.json" then some poolB
  else none

theorem c3_witness :
    load_questions_from_multiple_files fsTwo
      [{ path := "QAPool/en/m1.json", count := 2 },
       { path := "QAPool/en/m2.json", count := 1 }] =
      Except.ok [{ question := "Q1", answers := ["A", "B", "C", "D"], correct := "B" },
        { question := "Q2", answers := ["W", "X", "Y", "Z"], correct := "Z" },
        { question := "Q3", answers := ["E", "F", "G", "H"], correct := "E" }] := by
  have h := c3_selection fsTwo
    [{ path := "QAPool/en/m1.json", count := 2 },
     { path := "QAPool/en/m2.json", count := 1 }]
    (by
      intro c hc
      rcases List.mem_cons.mp hc with rfl | hc2
      · exact ⟨poolA, by decide, by decide⟩
      · rcases List.mem_cons.mp hc2 with rfl | hc3
        · exact ⟨poolB, by decide, by decide⟩
        · simp at hc3)
  rw [h.1]
  decide

/-- C2: for every valid question, the converted choice set has exactly 5
choices, the choice at the correct index equals the original correct string,
and the last choice is the language sentinel, the English dont-know string for
en and Ne znam for rs, for every question position and every permutation drawn
by the shuffle. -/
theorem c2_convert_format (language : String) (questions : List Question)
    (draws : Nat → List String)
    (hperm : ∀ i, i < questions.length → (draws i).Perm (questions.getD i qdflt).answers)
    (hvalid : ∀ q ∈ questions, q.answers.length = 4 ∧ q.correct ∈ q.answers) :
    (convert_format language questions draws).length = questions.length ∧
    (∀ i, i < questions.length →
      ((convert_format language questions draws).getD i csdflt).choices.length = 5 ∧
      ((convert_format language questions draws).getD i csdflt).choices.getD
          ((convert_format language questions draws).getD i csdflt).correct "" =
        (questions.getD i qdflt).correct ∧
      ((convert_format language questions draws).getD i csdflt).choices.getLast? =
        some (sentinel language)) ∧
    sentinel "en" = idk ∧ sentinel "rs" = "Ne znam" := by
  refine ⟨convertAll_length language draws questions 0, ?_, by decide, by decide⟩
  intro i hi
  have hmem : questions.getD i qdflt ∈ questions := by
    rw [List.getD_eq_getElem questions qdflt hi]
    exact List.getElem_mem hi
  obtain ⟨h4, hc⟩ := hvalid _ hmem
  have hp := hperm i hi
  have hrw : (convert_format language questions draws).getD i csdflt =
      convertOne language (questions.getD i qdflt) (draws i) := by
    have h0 := convertAll_getD language draws questions 0 i hi
    simpa [convert_format] using h0
  rw [hrw]
  exact ⟨convertOne_len language _ _ hp h4,
    convertOne_correct_choice language _ _ hp hc,
    convertOne_sentinel_last language _ _⟩

/-- C8: the sentinel is never the correct choice: the correct index of every
converted choice set lies strictly below 4, so it never points at the last,
fifth, sentinel position, for every input question and every permutation
drawn. -/
theorem c8_sentinel_never_correct (language : String) (questions : List Question)
    (draws : Nat → List String)
    (hperm : ∀ i, i < questions.length → (draws i).Perm (questions.getD i qdflt).answers)
    (hvalid : ∀ q ∈ questions, q.answers.length = 4 ∧ q.correct ∈ q.answers) :
    ∀ i, i < questions.length →
      ((convert_format language questions draws).getD i csdflt).correct < 4 ∧
      ((convert_format language questions draws).getD i csdflt).choices.length = 5 := by
  intro i hi
  have hmem : questions.getD i qdflt ∈ questions := by
    rw [List.getD_eq_getElem questions qdflt hi]
    exact List.getElem_mem hi
  obtain ⟨h4, hc⟩ := hvalid _ hmem
  have hp := hperm i hi
  have hrw : (convert_format language questions draws).getD i csdflt =
      convertOne language (questions.getD i qdflt) (draws i) := by
    have h0 := convertAll_getD language draws questions 0 i hi
    simpa [convert_format] using h0
  rw [hrw]
  exact ⟨convertOne_correct_lt language _ _ hp h4 hc,
    convertOne_len language _ _ hp h4⟩

/-- The question of the conversion witnesses. -/
def qW : Question := { question := "Q1", answers := ["A", "B", "C", "D"], correct := "B" }

/-- The fixed shuffle draw of the conversion witnesses, a permutation of the
answers of the witness question. -/
def drawsW : Nat → List String := fun _ => ["D", "C", "B", "A"]

theorem c2_witness :
    (convert_format "en" [qW] drawsW).length = 1 ∧
    ((convert_format "en" [qW] drawsW).getD 0 csdflt).choices.length = 5 ∧
    ((convert_format "en" [qW] drawsW).getD 0 csdflt).choices.getD
        ((convert_format "en" [qW] drawsW).getD 0 csdflt).correct "" = "B" ∧
    ((convert_format "en" [qW] drawsW).getD 0 csdflt).choices.getLast? = some idk := by
  have h := c2_convert_format "en" [qW] drawsW
    (by
      intro i hi
      have hi1 : i < 1 := by simpa using hi
      have hz : i = 0 := Nat.lt_one_iff.mp hi1
      rw [hz]
      decide)
    (by
      intro q hq
      rcases List.mem_singleton.mp hq with rfl
      exact ⟨rfl, by decide⟩)
  obtain ⟨hlen, hall, hsen, _⟩ := h
  have h0 := hall 0 (by decide)
  refine ⟨hlen, h0.1, ?_, ?_⟩
  · exact h0.2.1
  · rw [h0.2.2, hsen]

theorem c8_witness :
    ((convert_format "en" [qW] drawsW).getD 0 csdflt).correct < 4 ∧
    ((convert_format "en" [qW] drawsW).getD 0 csdflt).choices.length = 5 := by
  have h := c8_sentinel_never_correct "en" [qW] drawsW
    (by
      intro i hi
      have hi1 : i < 1 := by simpa using hi
      have hz : i = 0 := Nat.lt_one_iff.mp hi1
      rw [hz]
      decide)
    (by
      intro q hq
      rcases List.mem_singleton.mp hq with rfl
      exact ⟨rfl, by decide⟩)
  exact h 0 (by decide)

theorem load_insufficient (fs : String → Option (List Question))
    (configs : List FileConfig)
    (hload : ∀ c ∈ configs, (fs c.path).isSome)
    (hshort : ∃ c ∈ configs, ((fs c.path).getD []).length < c.count) :
    ∃ p f r, load_questions_from_multiple_files fs configs =
      Except.error (GenError.insufficientQuestions p f r) ∧ f < r := by
  induction configs with
  | nil => simp at hshort
  | cons c rest ih =>
    obtain ⟨qs, hqs⟩ := Option.isSome_iff_exists.mp (hload c (List.mem_cons_self c rest))
    by_cases hlt : qs.length < c.count
    · refine ⟨c.path, qs.length, c.count, ?_, hlt⟩
      simp [load_questions_from_multiple_files, load_questions, hqs, hlt]
    · have hshort2 : ∃ c2 ∈ rest, ((fs c2.path).getD []).length < c2.count := by
        rcases hshort with ⟨c2, hc2, hlt2⟩
        rcases List.mem_cons.mp hc2 with hcc | hmem
        · exfalso
          rw [hcc, hqs] at hlt2
          exact hlt (by simpa using hlt2)
        · exact ⟨c2, hmem, hlt2⟩
      obtain ⟨p, f, r, hres, hfr⟩ :=
        ih (fun c2 hc2 => hload c2 (List.mem_cons_of_mem c hc2)) hshort2
      refine ⟨p, f, r, ?_, hfr⟩
      simp [load_questions_from_multiple_files, load_questions, hqs, hlt, hres]

/-- C4: when every pool of the file configuration exists but some pool yields
fewer valid questions than its required count, the generation of that variant
fails with an InsufficientQuestions error carrying a found count strictly below
the required count, and no artifact file is written: the error is raised during
loading, before any write of the output document. -/
theorem c4_insufficient_no_write (fs : String → Option (List Question))
    (writeOk : String → Bool) (draws : Nat → List String) (st : GenState)
    (configs : List FileConfig) (out : String)
    (hload : ∀ c ∈ configs, (fs c.path).isSome)
    (hshort : ∃ c ∈ configs, ((fs c.path).getD []).length < c.count) :
    ∃ p f r,
      (generate_test_from_multiple_files fs writeOk draws st configs out).result =
        Except.error (GenError.insufficientQuestions p f r) ∧ f < r ∧
      (generate_test_from_multiple_files fs writeOk draws st configs out).written = [] := by
  obtain ⟨p, f, r, hres, hfr⟩ := load_insufficient fs configs hload hshort
  refine ⟨p, f, r, ?_, hfr, ?_⟩
  · simp [generate_test_from_multiple_files, hres]
  · simp [generate_test_from_multiple_files, hres]

/-- The short pool filesystem of the insufficiency witness: the pool exists but
holds a single valid question. -/
def fsShort : String → Option (List Question) := fun p =>
  if p = "QAPool/en/m1.json" then some [qW] else none

/-- The initial generator state of the workflow witnesses. -/
def stW : GenState := initGenState "AI Citizen" "en" "SHEET"

theorem c4_witness :
    ∃ p f r,
      (generate_test_from_multiple_files fsShort (fun _ => true) drawsW stW
          [{ path := "QAPool/en/m1.json", count := 2 }] "/tmp/out.gs").result =
        Except.error (GenError.insufficientQuestions p f r) ∧ f < r ∧
      (generate_test_from_multiple_files fsShort (fun _ => true) drawsW stW
          [{ path := "QAPool/en/m1.json", count := 2 }] "/tmp/out.gs").written = [] := by
  exact c4_insufficient_no_write fsShort (fun _ => true) drawsW stW
    [{ path := "QAPool/en/m1.json", count := 2 }] "/tmp/out.gs"
    (by
      intro c hc
      rcases List.mem_singleton.mp hc with rfl
      decide)
    ⟨{ path := "QAPool/en/m1.json", count := 2 }, List.mem_singleton.mpr rfl, by decide⟩

/-- C9: for a fixed generator state, file configuration and output path, any two
runs of the generation differing only in the random draws produce the same
final generator state, and when both succeed their artifacts embed the same
ordered sequence of selected question texts and the same title, description,
name, results sheet, points and confirmation message; only the choice ordering
inside each question may differ. -/
theorem c9_two_runs (fs : String → Option (List Question)) (writeOk : String → Bool)
    (d1 d2 : Nat → List String) (st : GenState) (configs : List FileConfig)
    (out : String) :
    (generate_test_from_multiple_files fs writeOk d1 st configs out).state =
      (generate_test_from_multiple_files fs writeOk d2 st configs out).state ∧
    ∀ a1 a2,
      (generate_test_from_multiple_files fs writeOk d1 st configs out).result =
        Except.ok a1 →
      (generate_test_from_multiple_files fs writeOk d2 st configs out).result =
        Except.ok a2 →
      selectionOf a1 = selectionOf a2 ∧ a1.title = a2.title ∧
      a1.description = a2.description ∧ a1.name = a2.name ∧
      a1.results_sheet = a2.results_sheet ∧
      a1.points_per_question = a2.points_per_question ∧
      a1.confirmation_message = a2.confirmation_message := by
  unfold generate_test_from_multiple_files
  cases hload : load_questions_from_multiple_files fs configs with
  | error e => simp
  | ok qs =>
    by_cases hw : writeOk out
    · dsimp only
      rw [if_pos hw, if_pos hw]
      refine ⟨rfl, ?_⟩
      intro a1 a2 h1 h2
      have ha1 : a1 = generate_script { st with title := st.title ++ " [" ++ st.language ++ "]" }
          (convert_format st.language qs d1) := by
        exact (Except.ok.injEq _ _).mp h1.symm
      have ha2 : a2 = generate_script { st with title := st.title ++ " [" ++ st.language ++ "]" }
          (convert_format st.language qs d2) := by
        exact (Except.ok.injEq _ _).mp h2.symm
      subst ha1
      subst ha2
      refine ⟨?_, rfl, rfl, rfl, rfl, rfl, rfl⟩
      show (convertAll st.language d1 qs 0).map (fun cs => cs.question) =
        (convertAll st.language d2 qs 0).map (fun cs => cs.question)
      rw [convertAll_map_question, convertAll_map_question]
    · simp [hw]

/-- A second fixed draw, a different permutation, for the two-run witness. -/
def drawsW2 : Nat → List String := fun _ => ["A", "B", "C", "D"]

/-- A default artifact used as the fallback of option access in witnesses. -/
def adflt : Artifact :=
  { name := "", title := "", description := "", confirmation_message := "",
    results_sheet := "", points_per_question := 0, questions := [] }

/-- The first run of the two-run witness. -/
def runA : GenReturn :=
  generate_test_from_multiple_files fsTwo (fun _ => true) drawsW stW
    [{ path := "QAPool/en/m1.json", count := 2 }] "/tmp/o.gs"

/-- The second run of the two-run witness, differing only in the draws. -/
def runB : GenReturn :=
  generate_test_from_multiple_files fsTwo (fun _ => true) drawsW2 stW
    [{ path := "QAPool/en/m1.json", count := 2 }] "/tmp/o.gs"

/-- The artifact of the first witness run. -/
def artA : Artifact := runA.result.toOption.getD adflt

/-- The artifact of the second witness run. -/
def artB : Artifact := runB.result.toOption.getD adflt

theorem c9_witness :
    runA.state = runB.state ∧ selectionOf artA = selectionOf artB ∧
    artA.title = artB.title := by
  have h := c9_two_runs fsTwo (fun _ => true) drawsW drawsW2 stW
    [{ path := "QAPool/en/m1.json", count := 2 }] "/tmp/o.gs"
  have hA : (generate_test_from_multiple_files fsTwo (fun _ => true) drawsW stW
      [{ path := "QAPool/en/m1.json", count := 2 }] "/tmp/o.gs").result =
      Except.ok artA := by rfl
  have hB : (generate_test_from_multiple_files fsTwo (fun _ => true) drawsW2 stW
      [{ path := "QAPool/en/m1.json", count := 2 }] "/tmp/o.gs").result =
      Except.ok artB := by rfl
  have h2 := h.2 artA artB hA hB
  exact ⟨h.1, h2.1, h2.2.1⟩

theorem gen_error_title (fs : String → Option (List Question)) (writeOk : String → Bool)
    (draws : Nat → List String) (st : GenState) (configs : List FileConfig)
    (out : String) (e : GenError)
    (h : (generate_test_from_multiple_files fs writeOk draws st configs out).result =
      Except.error e) :
    (generate_test_from_multiple_files fs writeOk draws st configs out).state.title =
      st.title ++ " [" ++ st.language ++ "]" ∧
    (generate_test_from_multiple_files fs writeOk draws st configs out).state.language =
      st.language := by
  unfold generate_test_from_multiple_files at h ⊢
  cases hload : load_questions_from_multiple_files fs configs with
  | error e2 =>
    exact ⟨rfl, rfl⟩
  | ok qs =>
    rw [hload] at h
    dsimp only at h ⊢
    by_cases hw : writeOk out
    · rw [if_pos hw] at h
      exact absurd h (by simp)
    · rw [if_neg hw]
      exact ⟨rfl, rfl⟩

theorem gen_ok_artifact (fs : String → Option (List Question)) (writeOk : String → Bool)
    (draws : Nat → List String) (st : GenState) (configs : List FileConfig)
    (out : String) (a : Artifact)
    (h : (generate_test_from_multiple_files fs writeOk draws st configs out).result =
      Except.ok a) :
    a.title = st.title ++ " [" ++ st.language ++ "]" ∧
    (generate_test_from_multiple_files fs writeOk draws st configs out).state.title =
      st.title := by
  unfold generate_test_from_multiple_files at h ⊢
  cases hload : load_questions_from_multiple_files fs configs with
  | error e2 =>
    rw [hload] at h
    dsimp only at h
    exact absurd h (by simp)
  | ok qs =>
    rw [hload] at h
    dsimp only at h ⊢
    by_cases hw : writeOk out
    · rw [if_pos hw] at h ⊢
      have ha : a = generate_script
          { st with title := st.title ++ " [" ++ st.language ++ "]" }
          (convert_format st.language qs draws) := by
        exact ((Except.ok.injEq _ _).mp h).symm
      subst ha
      exact ⟨rfl, rfl⟩
    · rw [if_neg hw] at h
      exact absurd h (by simp)

/-- C10: when a generation run fails after the language tag was appended to the
generator title, the title is not restored: the final state carries the tagged
title. A subsequent successful generation from that state, as the batch
controller performs by reusing one generator per language across variants,
embeds a title carrying the language tag twice. -/
theorem c10_title_not_restored (fs1 fs2 : String → Option (List Question))
    (w1 w2 : String → Bool) (d1 d2 : Nat → List String) (st : GenState)
    (cfg1 cfg2 : List FileConfig) (out1 out2 : String) (e : GenError) (a : Artifact)
    (hfail : (generate_test_from_multiple_files fs1 w1 d1 st cfg1 out1).result =
      Except.error e)
    (hok : (generate_test_from_multiple_files fs2 w2 d2
        (generate_test_from_multiple_files fs1 w1 d1 st cfg1 out1).state
        cfg2 out2).result = Except.ok a) :
    (generate_test_from_multiple_files fs1 w1 d1 st cfg1 out1).state.title =
      st.title ++ " [" ++ st.language ++ "]" ∧
    a.title = st.title ++ " [" ++ st.language ++ "]" ++ " [" ++ st.language ++ "]" := by
  obtain ⟨ht, hl⟩ := gen_error_title fs1 w1 d1 st cfg1 out1 e hfail
  have h2 := (gen_ok_artifact fs2 w2 d2 _ cfg2 out2 a hok).1
  rw [ht, hl] at h2
  exact ⟨ht, h2⟩

/-- The failing first run of the title witness: the pool is too short. -/
def failRun : GenReturn :=
  generate_test_from_multiple_files fsShort (fun _ => true) drawsW stW
    [{ path := "QAPool/en/m1.json", count := 2 }] "/tmp/v1.gs"

/-- The succeeding second run of the title witness, reusing the state the
failing run left behind. -/
def secondRun : GenReturn :=
  generate_test_from_multiple_files fsTwo (fun _ => true) drawsW failRun.state
    [{ path := "QAPool/en/m1.json", count := 2 }] "/tmp/v2.gs"

/-- The artifact of the second title-witness run. -/
def artSecond : Artifact := secondRun.result.toOption.getD adflt

theorem c10_witness :
    failRun.state.title = "AI Citizen [en]" ∧
    artSecond.title = "AI Citizen [en] [en]" := by
  have h := c10_title_not_restored fsShort fsTwo (fun _ => true) (fun _ => true)
    drawsW drawsW stW
    [{ path := "QAPool/en/m1.json", count := 2 }]
    [{ path := "QAPool/en/m1.json", count := 2 }]
    "/tmp/v1.gs" "/tmp/v2.gs"
    (GenError.insufficientQuestions "QAPool/en/m1.json" 1 2) artSecond
    (by rfl) (by rfl)
  exact ⟨h.1.trans (by decide), h.2.trans (by decide)⟩

/-- A test name containing a single quote, as in a possessive English title. -/
def nameWithQuote : String := "Bob" ++ String.singleton squoteChar ++ "s Quiz"

/-- C7 fails on the code: _escape_js_string replaces only backslash, double
quote, newline and carriage return, so a single quote passes through unchanged,
while generate_script embeds the title, description and confirmation message
inside single-quoted template literals; on this input the single-quoted
embedding contains a bare delimiter and the literal terminates early. The
double-quoted embedding of question text stays intact on the same input. -/
theorem c7_single_quote_breaks :
    _escape_js_string nameWithQuote = nameWithQuote ∧
    hasUnescaped squoteChar (_escape_js_string nameWithQuote).data = true ∧
    hasUnescaped dquoteChar (_escape_js_string nameWithQuote).data = false ∧
    embedSingleQuoted nameWithQuote =
      String.singleton squoteChar ++ nameWithQuote ++ String.singleton squoteChar := by
  exact ⟨by decide, by decide, by decide, by decide⟩

/-- The pool filesystem of the batch scenario: the English pool holds one valid
question while two are required; the Serbian pool holds two. -/
def fsBatch : String → Option (List Question) := fun p =>
  if p = "QAPool/en/m1.json" then some [qW]
  else if p = "QAPool/rs/m1.json" then some poolA
  else none

/-- The batch configuration of the C1 scenario: both languages, one variant
each, one pool entry requiring two questions. -/
def batchCfg : BatchConfig :=
  { name := "AI Citizen", results_sheet := "SHEET", content := [("/m1.json", 2)],
    language := "both", variants := 1, output_dir := "/tmp" }

/-- The draw stream of the batch scenario; never consulted because the first
variant fails during loading. -/
def drawsBatch : String → Nat → Nat → List String := fun _ _ _ => []

/-- C1 fails on the code: the English pool is insufficient, so the generator
raises a ValueError, but the except clause of the batch loop names only
RuntimeError; the exception therefore escapes generate_test_variants. The
Serbian variant, although its pool is sufficient, is never attempted, nothing
is written, and no list of paths is returned. -/
theorem c1_batch_aborts :
    (generate_test_variants fsBatch (fun _ => true) drawsBatch batchCfg none none
        none "2026-10-12").result =
      Except.error (GenError.insufficientQuestions "QAPool/en/m1.json" 1 2) ∧
    (generate_test_variants fsBatch (fun _ => true) drawsBatch batchCfg none none
        none "2026-10-12").attempted = [("en", 1)] ∧
    (generate_test_variants fsBatch (fun _ => true) drawsBatch batchCfg none none
        none "2026-10-12").written = [] ∧
    (GenError.insufficientQuestions "QAPool/en/m1.json" 1 2).pyClass =
      PyExcClass.valueError ∧
    load_questions_from_multiple_files fsBatch
      [{ path := "QAPool/rs/m1.json", count := 2 }] = Except.ok poolA := by
  exact ⟨rfl, rfl, rfl, rfl, rfl⟩
